import Mathlib

/-!
Shallow embedding of the enrichment-and-pricing pipeline of the
Scanner-livre book-liquidation application, together with proofs of the
testable properties of the specification.

Python values are embedded as follows: `str` becomes `String`, `int`
becomes `ℤ` (or `ℕ` where the source only ever sees non-negative
values), `float` becomes `ℚ`, fallible results become `Option`/`Except`,
and SQL rows / JSON objects become structures whose nullable/optional
fields are `Option`-typed.
-/

namespace Scanner

/-- Python slice `s[:k]`, including the negative-index convention
(`s[:-1]` drops the final character). -/
def pySliceTo (s : String) (k : ℤ) : String :=
  if 0 ≤ k then String.mk (s.data.take k.toNat)
  else String.mk (s.data.take ((s.length : ℤ) + k).toNat)

/-- Python slice `s[k:]` for a negative `k` (`s[-4:]` keeps the last 4
characters); only used with negative offsets in this code base. -/
def pySliceFromNeg (s : String) (k : ℤ) : String :=
  String.mk (s.data.drop ((s.length : ℤ) + k).toNat)

/-- Python `str.startswith` on the ASCII strings this program handles. -/
def startswith (s p : String) : Bool :=
  s.data.take p.data.length == p.data

/-- Python `str.upper` (ASCII, which is all this program feeds it). -/
def pyUpper (s : String) : String := String.mk (s.data.map Char.toUpper)

/-- Python `str.lower` (ASCII, which is all this program feeds it). -/
def pyLower (s : String) : String := String.mk (s.data.map Char.toLower)

namespace config

def EBAY_SITE_ID : String := "Canada"

def EBAY_COUNTRY : String := "CA"

def EBAY_CURRENCY : String := "CAD"

def EBAY_VERSION : String := "1193"

def EBAY_LOCATION : String := "VALCOURT,QC"

def EBAY_POSTAL_CODE : String := "J0E2L0"

def EBAY_CATEGORY_BOOKS : String := "267"

def EBAY_FORMAT : String := "FixedPrice"

def EBAY_DURATION : String := "GTC"

def GOOGLE_BOOKS_TIMEOUT : ℕ := 10

def OPENLIBRARY_TIMEOUT : ℕ := 10

def API_MAX_RETRIES : ℕ := 3

def API_RETRY_DELAY : ℕ := 2

/-- The 51 eBay File Exchange header names of `config.EBAY_CSV_HEADERS`. -/
def EBAY_CSV_HEADERS : List String := [
  "*Action(SiteID=" ++ EBAY_SITE_ID ++ "|Country=" ++ EBAY_COUNTRY ++
    "|Currency=" ++ EBAY_CURRENCY ++ "|Version=" ++ EBAY_VERSION ++ ")",
  "Custom label (SKU)",
  "Category ID",
  "Category name",
  "Title",
  "Relationship",
  "Relationship details",
  "Schedule Time",
  "P:EPID",
  "Start price",
  "Quantity",
  "Item photo URL",
  "VideoID",
  "Condition ID",
  "Description",
  "Format",
  "Duration",
  "Buy It Now price",
  "Best Offer Enabled",
  "Best Offer Auto Accept Price",
  "Minimum Best Offer Price",
  "Immediate pay required",
  "Location",
  "Shipping service 1 option",
  "Shipping service 1 cost",
  "Shipping service 1 priority",
  "Shipping service 2 option",
  "Shipping service 2 cost",
  "Shipping service 2 priority",
  "Max dispatch time",
  "Returns accepted option",
  "Returns within option",
  "Refund option",
  "Return shipping cost paid by",
  "Shipping profile name",
  "Return profile name",
  "Payment profile name",
  "ProductCompliancePolicyID",
  "Regional ProductCompliancePolicies",
  "C:Author",
  "C:Book Title",
  "C:Language",
  "C:Format",
  "C:Publication Year",
  "WeightMajor",
  "WeightMinor",
  "WeightUnit",
  "PackageLength",
  "PackageDepth",
  "PackageWidth",
  "PostalCode"
]

/-- One entry of the `config.CONDITIONS` table. -/
structure CondInfo where
  id : String
  name : String
  price_factor : ℚ
  description : String
deriving DecidableEq

/-- The `USED` entry, referenced directly by `get_condition_info`
as the USED entry of CONDITIONS. -/
def usedCondInfo : CondInfo :=
  ⟨"5000", "Acceptable", 0.35, "Livre usagé, tous les pages intactes"⟩

/-- The `config.CONDITIONS` dict (insertion-ordered key/value pairs). -/
def CONDITIONS : List (String × CondInfo) := [
  ("NEW", ⟨"1000", "Brand New", 0.70, "Livre neuf, jamais ouvert"⟩),
  ("GOOD", ⟨"2750", "Very Good", 0.50,
    "Livre en très bon état, quelques signes d\x27usage mineurs"⟩),
  ("USED", usedCondInfo),
  ("DONATION", ⟨"", "Donation", 0, "Pour donation (pas eBay)"⟩)
]

def MIN_PRICE : ℚ := 3.99

def VALID_CONDITIONS : List String := ["NEW", "GOOD", "USED", "DONATION"]

def WEIGHT_PER_PAGE : ℤ := 8

def DEFAULT_PAGES : ℤ := 200

def DEFAULT_LANGUAGE : String := "eng"

def DEFAULT_BINDING : String := "Paperback"

def EXPORT_MIN_PRICE_CHECK : Bool := true

/-- `config.get_condition_info`: the CONDITIONS entry at the upper-cased condition, defaulting to the USED entry. -/
def get_condition_info (condition : String) : CondInfo :=
  match CONDITIONS.lookup (pyUpper condition) with
  | some info => info
  | none => usedCondInfo

/-- `config.get_price_factor`: the price factor of the CONDITIONS entry at the upper-cased condition, defaulting to 0.35. -/
def get_price_factor (condition : String) : ℚ :=
  match CONDITIONS.lookup (pyUpper condition) with
  | some info => info.price_factor
  | none => 0.35

end config

namespace utils

/-- `utils.truncate_text` on a string argument: returns the text unchanged
when it is falsy (empty) or short enough, otherwise truncates and appends
the suffix (`text[:max_length - len(suffix)] + suffix`). -/
def truncate_text (text : String) (max_length : ℤ) (suffix : String) : String :=
  if text = "" ∨ (text.length : ℤ) ≤ max_length then text
  else pySliceTo text (max_length - (suffix.length : ℤ)) ++ suffix

/-- Python `round(x, 2)`: bankers rounding (round half to even) of the
rational value, at 2 decimal places. -/
def pyRound2 (q : ℚ) : ℚ :=
  let x := q * 100
  let f : ℤ := Int.floor x
  let frac := x - (f : ℚ)
  let r : ℤ :=
    if frac < 1/2 then f
    else if 1/2 < frac then f + 1
    else if f % 2 = 0 then f else f + 1
  (r : ℚ) / 100

/-- `utils.calculate_price(msrp, condition)`: factor lookup, price floor,
2-decimal rounding.  the falsy-or-nonpositive test is embedded as the
equivalent disjunction (Python not-msrp is true exactly for zero msrp
among numbers). -/
def calculate_price (msrp : ℚ) (condition : String) : ℚ :=
  if msrp = 0 ∨ msrp ≤ 0 then config.MIN_PRICE
  else
    let factor := config.get_price_factor (pyUpper condition)
    let price := msrp * factor
    let price := if price < config.MIN_PRICE then config.MIN_PRICE else price
    pyRound2 price

/-- `utils.estimate_weight_from_pages` (the `int()` cast on the product of
two ints is the identity). -/
def estimate_weight_from_pages (pages : ℤ) : ℤ :=
  let pages := if pages = 0 ∨ pages ≤ 0 then config.DEFAULT_PAGES else pages
  pages * config.WEIGHT_PER_PAGE

/-- `utils.weight_grams_to_major_minor`: Python `//` and `%` are floor
division and floor remainder, i.e. `Int.fdiv`/`Int.fmod`. -/
def weight_grams_to_major_minor (weight_g : ℤ) : ℤ × ℤ :=
  (weight_g.fdiv 1000, weight_g.fmod 1000)

/-- `utils.major_minor_to_grams`. -/
def major_minor_to_grams (major_kg minor_g : ℤ) : ℤ :=
  major_kg * 1000 + minor_g

/-- Python ASCII whitespace, the class the `strip`/`\s` operations of this
code see on its ASCII inputs. -/
def isPyWs (c : Char) : Bool :=
  c == ' ' || c == '\t' || c == '\n' || c == '\r' || c == '\x0b' || c == '\x0c'

/-- Python `str.strip()`. -/
def pyStrip (s : String) : String :=
  String.mk (((s.data.dropWhile isPyWs).reverse.dropWhile isPyWs).reverse)

/-- The tag-removal regex substitution of `clean_text`: drop every span
from an opening angle bracket through the first following closing angle
bracket with at least one character in between. -/
def removeTags : List Char → List Char
  | [] => []
  | c :: rest =>
    if c = '<' then
      match rest.findIdx? (· == '>') with
      | some i =>
        if i = 0 then c :: removeTags rest
        else removeTags (rest.drop (i + 1))
      | none => c :: removeTags rest
    else c :: removeTags rest
termination_by l => l.length
decreasing_by
  all_goals simp [List.length_drop]
  all_goals omega

/-- The whitespace-collapse substitution `re.sub(r'\s+', ' ', text)` of
`clean_text`: replace each maximal whitespace run by one space. -/
def collapseWs : List Char → List Char
  | [] => []
  | c :: rest =>
    if isPyWs c then ' ' :: collapseWs (rest.dropWhile isPyWs)
    else c :: collapseWs rest
termination_by l => l.length
decreasing_by
  all_goals simp
  all_goals exact Nat.lt_succ_of_le (List.Sublist.length_le (List.dropWhile_sublist _))

/-- `utils.clean_text`: empty for falsy input, else strip, drop HTML tags,
collapse whitespace. -/
def clean_text (text : Option String) : String :=
  match text with
  | none => ""
  | some s =>
    if s = "" then ""
    else
      let s1 := pyStrip s
      let s2 := String.mk (removeTags s1.data)
      String.mk (collapseWs s2.data)

/-- Python `int(digit_char)` for a single digit character. -/
def charToDigit (c : Char) : ℕ := c.toNat - 48

/-- Python `str(d)` for a single decimal digit (the only use in this code). -/
def digitToChar (d : ℕ) : Char := Char.ofNat (48 + d)

/-- The ISBN-10 weighted checksum loop of `isbn13_to_isbn10`:
`checksum += int(digit) * (10 - i)` over the enumerated characters. -/
def isbn10wsum : List Char → ℕ → ℕ
  | [], _ => 0
  | c :: rest, i => charToDigit c * (10 - i) + isbn10wsum rest (i + 1)

/-- The ISBN-13 weighted checksum loop of `isbn10_to_isbn13`:
`weight = 1 if i % 2 == 0 else 3` over the enumerated characters. -/
def isbn13wsum : List Char → ℕ → ℕ
  | [], _ => 0
  | c :: rest, i => charToDigit c * (if i % 2 = 0 then 1 else 3) + isbn13wsum rest (i + 1)

/-- `utils.isbn13_to_isbn10`. -/
def isbn13_to_isbn10 (isbn13 : String) : Option String :=
  if isbn13.length ≠ 13 then none
  else if !(startswith isbn13 "978" || startswith isbn13 "979") then none
  else
    let isbn10_base := (isbn13.data.drop 3).take 9
    let checksum := (11 - isbn10wsum isbn10_base 0 % 11) % 11
    let check_char := if checksum = 10 then 'X' else digitToChar checksum
    some (String.mk (isbn10_base ++ [check_char]))

/-- `utils.isbn10_to_isbn13`. -/
def isbn10_to_isbn13 (isbn10 : String) : Option String :=
  if isbn10.length ≠ 10 then none
  else
    let isbn13_base := ("978" ++ pySliceTo isbn10 (-1)).data
    let checksum := (10 - isbn13wsum isbn13_base 0 % 10) % 10
    some (String.mk (isbn13_base ++ [digitToChar checksum]))

end utils

/-- One row of the `scans` table, as the dict handed to the export module.
Columns that are `NOT NULL` in the schema are plain-typed; the remaining
columns are `Option`-typed (`none` embeds an absent value, for which
`dict.get(key, default)` yields the default).  Columns the pipeline under
verification never reads (dates, notes, status, counters) are omitted. -/
structure Scan where
  id : ℤ
  timestamp : String
  bin : String
  upc : String
  condition : String
  quantity : ℤ
  weight_major : Option ℚ
  weight_minor : Option ℚ
  pkg_length : Option ℚ
  pkg_depth : Option ℚ
  pkg_width : Option ℚ
  pallet : Option String
  sku : Option String
  title : Option String
  msrp : Option ℚ
  author : Option String
  publisher : Option String
  pub_year : Option String
  pages : Option ℤ
  binding : Option String
  language : Option String
  description : Option String
  image_url : Option String
  description_html : Option String
  start_price : Option ℚ
  ebay_category : Option String
  ebay_condition_id : Option String
  enriched : ℤ
  exported : ℤ
deriving DecidableEq

/-- One CSV cell value: the Python rows mix strings, ints and floats. -/
inductive Cell where
  | s (v : String)
  | i (v : ℤ)
  | q (v : ℚ)
deriving DecidableEq

namespace ebay_export

/-- The language-code → eBay display-name dict of `build_ebay_row`. -/
def lang_map : List (String × String) :=
  [("eng", "English"), ("fra", "French"), ("fre", "French"),
   ("spa", "Spanish"), ("deu", "German"), ("ger", "German")]

/-- The WeightMajor/WeightMinor cells of `build_ebay_row` (source lines
133-145): weights from the record, estimated from the page count when both
are zero. -/
def weight_cells (scan_data : Scan) : Cell × Cell :=
  let weight_major : ℚ := scan_data.weight_major.getD 0
  let weight_minor : ℚ := scan_data.weight_minor.getD 0
  if weight_major = 0 ∧ weight_minor = 0 then
    let pages := scan_data.pages.getD config.DEFAULT_PAGES
    let total_weight_g := utils.estimate_weight_from_pages pages
    let p := utils.weight_grams_to_major_minor total_weight_g
    (Cell.i p.1, Cell.i p.2)
  else (Cell.q weight_major, Cell.q weight_minor)

/-- The local variable `row` of `build_ebay_row`: the 52-cell construction
(23 leading cells, 12 blank shipping cells, 17 trailing cells ending in
the postal code) built before the final slice. -/
def ebay_row_full (scan_data : Scan) (aggregated_quantity : ℤ) : List Cell :=
  let action := Cell.s "Add"
  let sku := Cell.s scan_data.upc
  let category_id := Cell.s (scan_data.ebay_category.getD config.EBAY_CATEGORY_BOOKS)
  let category_name := Cell.s ""
  let title := utils.truncate_text (scan_data.title.getD "Livre") 80 "..."
  let relationship := Cell.s ""
  let relationship_details := Cell.s ""
  let schedule_time := Cell.s ""
  let epid := Cell.s ""
  let start_price := Cell.q (scan_data.start_price.getD config.MIN_PRICE)
  let quantity := Cell.i aggregated_quantity
  let photo_url := Cell.s (scan_data.image_url.getD "")
  let video_id := Cell.s ""
  let condition_id := Cell.s (scan_data.ebay_condition_id.getD "5000")
  let description := Cell.s (scan_data.description_html.getD "")
  let format_type := Cell.s config.EBAY_FORMAT
  let duration := Cell.s config.EBAY_DURATION
  let buy_it_now := Cell.s ""
  let best_offer_enabled := Cell.s ""
  let best_offer_auto_accept := Cell.s ""
  let best_offer_min := Cell.s ""
  let immediate_pay := Cell.s ""
  let location := Cell.s config.EBAY_LOCATION
  let shipping_cols := List.replicate 12 (Cell.s "")
  let shipping_profile := Cell.s ""
  let return_profile := Cell.s ""
  let payment_profile := Cell.s ""
  let compliance_policy := Cell.s ""
  let regional_compliance := Cell.s ""
  let author := utils.truncate_text (scan_data.author.getD "Auteur inconnu") 50 "..."
  let book_title := title
  let language := scan_data.language.getD "eng"
  let language_display := (lang_map.lookup (pyLower language)).getD "English"
  let binding := Cell.s (scan_data.binding.getD config.DEFAULT_BINDING)
  let pub_year := Cell.s (scan_data.pub_year.getD "")
  let wcells := weight_cells scan_data
  let weight_unit := Cell.s ""
  let pkg_length := Cell.q (scan_data.pkg_length.getD 0)
  let pkg_depth := Cell.q (scan_data.pkg_depth.getD 0)
  let pkg_width := Cell.q (scan_data.pkg_width.getD 0)
  let postal_code := Cell.s config.EBAY_POSTAL_CODE
  [action, sku, category_id, category_name, Cell.s title, relationship,
   relationship_details, schedule_time, epid, start_price, quantity,
   photo_url, video_id, condition_id, description, format_type, duration,
   buy_it_now, best_offer_enabled, best_offer_auto_accept, best_offer_min,
   immediate_pay, location] ++ shipping_cols ++
  [shipping_profile, return_profile, payment_profile, compliance_policy,
   regional_compliance, Cell.s author, Cell.s book_title,
   Cell.s language_display, binding, pub_year, wcells.1, wcells.2,
   weight_unit, pkg_length, pkg_depth, pkg_width, postal_code]

/-- `build_ebay_row`: the 52-cell construction sliced to its first 51
cells (`return row[:51]`). -/
def build_ebay_row (scan_data : Scan) (aggregated_quantity : ℤ) : List Cell :=
  (ebay_row_full scan_data aggregated_quantity).take 51

/-- One value of the `aggregated` dict of `aggregate_scans_by_upc_condition`. -/
structure AggEntry where
  scan_data : Scan
  quantity : ℤ
  scan_ids : List ℤ
deriving DecidableEq

/-- The dict key `f"{upc}_{condition}"`. -/
def keyOf (scan : Scan) : String := scan.upc ++ "_" ++ scan.condition

/-- One iteration of the `for scan in scans` loop of
`aggregate_scans_by_upc_condition`: insert a fresh zero entry when the key
is new, then add the quantity and append the scan id at the key.  The
Python dict is embedded as an insertion-ordered association list. -/
def aggStep (aggregated : List (String × AggEntry)) (scan : Scan) :
    List (String × AggEntry) :=
  let key := keyOf scan
  let aggregated :=
    if (aggregated.lookup key).isSome then aggregated
    else aggregated ++ [(key, ⟨scan, 0, []⟩)]
  aggregated.map (fun kv =>
    if kv.1 = key then
      (kv.1, ⟨kv.2.scan_data, kv.2.quantity + scan.quantity,
        kv.2.scan_ids ++ [scan.id]⟩)
    else kv)

/-- `aggregate_scans_by_upc_condition`: the final
`list(aggregated.values())`. -/
def aggregate_scans_by_upc_condition (scans : List Scan) : List AggEntry :=
  (scans.foldl aggStep []).map Prod.snd

/-- The structured result dict returned by `generate_ebay_csv`. -/
structure ExportResult where
  success : Bool
  row_count : ℕ
  message : String
  file_path : Option String
deriving DecidableEq

/-- Modelled from the spec: the persistent record store.  The export module
calls `database.get_unexported_scans`, `database.get_scans_by_date` and
`database.mark_scans_as_exported`, none of which is defined in the
repository (its `database.py` offers `update_scan_exported` instead); the
spec treats the store as an external collaborator exposed through
`get_unenriched()` / `mark_exported(ids)`-style operations, so a store
state supplies the pending records and the mark operation directly. -/
structure RecordStore where
  unexported : List Scan
  byDate : String → List Scan
  markExported : List ℤ → ℕ

/-- `generate_ebay_csv`.  The CSV file write is an external effect whose
outcome is the `writeFile` parameter (`Except.error e` embeds a raised
I/O exception carrying message `e`); the `try/except` of the source is the
final `match`.  The second component of the returned pair records the data
rows written to the file (`none` when the write never happened or
failed), and the `Except` layer would surface any exception the function
let escape. -/
def generate_ebay_csv (db : RecordStore) (writeFile : Except String Unit)
    (output_path : String) (date_filter : Option String) (mark_exported : Bool) :
    Except String (ExportResult × Option (List (List Cell))) :=
  let scans : List Scan :=
    match date_filter with
    | some d => (db.byDate d).filter (fun s => s.enriched == 1 && s.exported == 0)
    | none => db.unexported
  if scans.isEmpty then
    Except.ok (⟨false, 0, "Aucun scan enrichi non exporté trouvé", none⟩, none)
  else
    let scans := scans.filter (fun s => pyUpper s.condition != "DONATION")
    if scans.isEmpty then
      Except.ok (⟨false, 0, "Tous les scans sont des donations (pas pour eBay)",
        none⟩, none)
    else
      let aggregated := aggregate_scans_by_upc_condition scans
      let build := aggregated.foldl (fun (acc : List (List Cell) × List ℤ) (item : AggEntry) =>
        if config.EXPORT_MIN_PRICE_CHECK = true ∧
            item.scan_data.start_price.getD 0 < config.MIN_PRICE then acc
        else (acc.1 ++ [build_ebay_row item.scan_data item.quantity],
          acc.2 ++ item.scan_ids)) ([], [])
      let rows := build.1
      let scan_ids_to_mark := build.2
      if rows.isEmpty then
        Except.ok (⟨false, 0, "Aucune ligne valide après filtrage prix minimum",
          none⟩, none)
      else
        match writeFile with
        | Except.ok _ =>
          let _count :=
            if mark_exported ∧ ¬scan_ids_to_mark.isEmpty then
              db.markExported scan_ids_to_mark
            else 0
          let n := rows.length
          Except.ok (⟨true, n, toString n ++ " listing(s) exporté(s)",
            some output_path⟩, some rows)
        | Except.error e =>
          Except.ok (⟨false, 0, "Erreur: " ++ e, none⟩, none)

end ebay_export

namespace enrichment

/-- The transport-level outcome of one `requests.get` call: a timeout, any
other raised exception, or a response whose `status_code` is inspected and
whose `.json()` either parses to a body or raises. -/
inductive RequestOutcome (α : Type) where
  | timeout
  | raises (msg : String)
  | response (status_code : ℤ) (body : Except String α)

/-- The `imageLinks` object of a Google Books volume. -/
structure ImageLinks where
  thumbnail : Option String
  smallThumbnail : Option String

/-- The `volumeInfo` object of a Google Books item; absent JSON keys are
`none` (an absent authors key is the empty list, matching the empty-list
dict default of the source). -/
structure VolumeInfo where
  authors : List String
  publisher : Option String
  publishedDate : Option String
  pageCount : Option ℤ
  description : Option String
  imageLinks : Option ImageLinks
  language : Option String
  title : Option String

/-- One element of the `items` array of a Google Books response. -/
structure GBItem where
  volumeInfo : Option VolumeInfo

/-- A parsed Google Books JSON body. -/
structure GBooksData where
  totalItems : Option ℤ
  items : Option (List GBItem)

/-- The empty-dict default applied to an absent volumeInfo key. -/
def emptyVolumeInfo : VolumeInfo := ⟨[], none, none, none, none, none, none, none⟩

/-- The normalized partial record both parse functions return. -/
structure PartialRecord where
  author : Option String
  publisher : Option String
  pub_year : Option String
  pages : Option ℤ
  description : Option String
  image_url : Option String
  language : Option String
  title : Option String
  source : String
deriving DecidableEq

/-- Python `a or b` over string-or-None values: `b` when `a` is `None` or
the empty string, else `a`. -/
def pyOrOpt (a b : Option String) : Option String :=
  match a with
  | some s => if s = "" then b else some s
  | none => b

/-- `parse_google_books_response`.  Indexing the first element of the
items array raises KeyError/IndexError on a missing key or empty list;
the try/except of the function turns both into None. -/
def parse_google_books_response (data : GBooksData) : Option PartialRecord :=
  match data.items with
  | none => none
  | some [] => none
  | some (item :: _) =>
    let volume_info := item.volumeInfo.getD emptyVolumeInfo
    let authors := volume_info.authors
    let author := if authors.isEmpty then none
      else some (String.intercalate ", " authors)
    let publisher := volume_info.publisher
    let pub_date := volume_info.publishedDate.getD ""
    let pub_year := if pub_date = "" then none else some (pySliceTo pub_date 4)
    let pages := volume_info.pageCount
    let description :=
      match volume_info.description with
      | none => none
      | some d =>
        if d = "" then some d
        else some (utils.truncate_text (utils.clean_text (some d)) 1000 "...")
    let image_links := volume_info.imageLinks.getD (ImageLinks.mk none none)
    let image_url := pyOrOpt image_links.thumbnail image_links.smallThumbnail
    let language := volume_info.language.getD config.DEFAULT_LANGUAGE
    let title := volume_info.title
    some (PartialRecord.mk author publisher pub_year pages description image_url
      (some language) title "google_books")

/-- `fetch_google_books`: one HTTP request, whose outcome is `env 0`; the
second component counts the requests issued.  Every branch of the
try/except of the source returns, so the `Except` layer (a raised, uncaught
exception) is always `ok`. -/
def fetch_google_books (env : ℕ → RequestOutcome GBooksData) (upc : String) :
    Except String (Option PartialRecord × ℕ) :=
  match env 0 with
  | RequestOutcome.timeout => Except.ok (none, 1)
  | RequestOutcome.raises _ => Except.ok (none, 1)
  | RequestOutcome.response status body =>
    if status = 200 then
      match body with
      | Except.error _ => Except.ok (none, 1)
      | Except.ok data =>
        if data.totalItems.getD 0 > 0 then
          Except.ok (parse_google_books_response data, 1)
        else Except.ok (none, 1)
    else Except.ok (none, 1)

/-- An author object of an OpenLibrary record. -/
structure OLAuthor where
  name : Option String

/-- A publisher object of an OpenLibrary record. -/
structure OLPublisher where
  name : Option String

/-- The `notes` field of an OpenLibrary record: a string, or an object
with an optional `value`. -/
inductive OLNotes where
  | nstr (s : String)
  | nobj (value : Option String)

/-- The `cover` object of an OpenLibrary record. -/
structure OLCover where
  small : Option String
  medium : Option String
  large : Option String

/-- One OpenLibrary record (the value under one bib-key). -/
structure OLEntry where
  authors : List OLAuthor
  publishers : List OLPublisher
  publish_date : Option String
  number_of_pages : Option ℤ
  notes : Option OLNotes
  cover : Option OLCover
  title : Option String

/-- `parse_openlibrary_response` (its `upc` parameter is unused in the
source as well). -/
def parse_openlibrary_response (data : OLEntry) (_upc : String) :
    Option PartialRecord :=
  let authors_list := data.authors
  let author := if authors_list.isEmpty then none
    else some (String.intercalate ", " (authors_list.map (fun a => a.name.getD "")))
  let publishers_list := data.publishers
  let publisher :=
    match publishers_list with
    | [] => none
    | p :: _ => p.name
  let pub_date := data.publish_date.getD ""
  let pub_year := if 4 ≤ pub_date.length then some (pySliceFromNeg pub_date (-4))
    else none
  let pages := data.number_of_pages
  let description0 : Option String :=
    match data.notes with
    | none => none
    | some (OLNotes.nobj v) => v
    | some (OLNotes.nstr s) => some s
  let description :=
    match description0 with
    | none => none
    | some d =>
      if d = "" then some d
      else some (utils.truncate_text (utils.clean_text (some d)) 1000 "...")
  let cover := data.cover.getD (OLCover.mk none none none)
  let image_url := pyOrOpt (pyOrOpt cover.medium cover.small) cover.large
  let title := data.title
  some (PartialRecord.mk author publisher pub_year pages description image_url
    none title "openlibrary")

/-- The `for bibkey in bibkeys: if bibkey in data:` loop of
`fetch_openlibrary`: the record at the first bib-key the response carries. -/
def firstHit : List String → List (String × OLEntry) → Option OLEntry
  | [], _ => none
  | k :: rest, data =>
    match data.lookup k with
    | some v => some v
    | none => firstHit rest data

/-- `fetch_openlibrary`: derives a second ISBN-10 bib-key when possible,
issues one HTTP request, and scans the response for the first matching
bib-key; all failure branches return `none` without raising. -/
def fetch_openlibrary (env : ℕ → RequestOutcome (List (String × OLEntry)))
    (upc : String) : Except String (Option PartialRecord × ℕ) :=
  let bibkeys : List String :=
    ["ISBN:" ++ upc] ++
      (match utils.isbn13_to_isbn10 upc with
       | some isbn10 => ["ISBN:" ++ isbn10]
       | none => [])
  match env 0 with
  | RequestOutcome.timeout => Except.ok (none, 1)
  | RequestOutcome.raises _ => Except.ok (none, 1)
  | RequestOutcome.response status body =>
    if status = 200 then
      match body with
      | Except.error _ => Except.ok (none, 1)
      | Except.ok data =>
        match firstHit bibkeys data with
        | some entry => Except.ok (parse_openlibrary_response entry upc, 1)
        | none => Except.ok (none, 1)
    else Except.ok (none, 1)

/-- Modelled from the spec: a client that, on timeout or any
transport/parse failure, retries the call up to the configured maximum
attempt count (`API_MAX_RETRIES`); this function counts the requests such
a client would issue against the same environment. -/
def retry_attempts_aux (env : ℕ → RequestOutcome GBooksData) : ℕ → ℕ → ℕ
  | 0, made => made
  | budget + 1, made =>
    match env made with
    | RequestOutcome.response _ (Except.ok _) => made + 1
    | _ => retry_attempts_aux env budget (made + 1)

/-- Modelled from the spec: the number of requests a spec-conforming
retrying client issues. -/
def retrying_fetch_attempts (env : ℕ → RequestOutcome GBooksData) : ℕ :=
  retry_attempts_aux env config.API_MAX_RETRIES 0

/-- A request environment outcome that counts as a failure for the retry
policy: timeout, raised transport error, non-200 status, or a body that
fails to parse. -/
def isFailure {α : Type} : RequestOutcome α → Prop
  | RequestOutcome.timeout => True
  | RequestOutcome.raises _ => True
  | RequestOutcome.response status body =>
    status ≠ 200 ∨ ∃ e, body = Except.error e

/-- The manifest-row keys `merge_book_data` reads. -/
structure ManifestData where
  title : Option String
  msrp : Option ℚ

/-- The scan-record keys `merge_book_data` reads (both `NOT NULL` columns,
so plain strings). -/
structure ScanInput where
  upc : String
  condition : String

/-- The book fields `generate_ebay_description` reads from the merged
dict (at this call site every key is present, so the dict defaults of the
source are unreachable). -/
structure BookDesc where
  title : String
  author : String
  publisher : String
  pub_year : String
  upc : String
  binding : String
  pages : ℤ
  language : String
  description : String
  condition : String

/-- The complete merged record `merge_book_data` returns. -/
structure Merged where
  upc : String
  title : String
  author : String
  publisher : String
  pub_year : String
  pages : ℤ
  binding : String
  language : String
  description : String
  image_url : String
  condition : String
  msrp : ℚ
  start_price : ℚ
  ebay_category : String
  ebay_condition_id : String
  description_html : String
  data_source : String

/-- A Python `a or b or ... or default` cascade over string-or-None
operands: the first non-None, non-empty value, else the default. -/
def pyOrD : List (Option String) → String → String
  | [], dflt => dflt
  | v :: rest, dflt =>
    match v with
    | some s => if s = "" then pyOrD rest dflt else s
    | none => pyOrD rest dflt

/-- The same cascade over int-or-None operands (`0` is falsy). -/
def pyOrDInt : List (Option ℤ) → ℤ → ℤ
  | [], dflt => dflt
  | v :: rest, dflt =>
    match v with
    | some n => if n = 0 then pyOrDInt rest dflt else n
    | none => pyOrDInt rest dflt

end enrichment

namespace utils

/-- `utils.generate_ebay_description`: deterministic HTML template
substitution, stripped of surrounding whitespace. -/
def generate_ebay_description (book_data : enrichment.BookDesc) : String :=
  let title := book_data.title
  let author := book_data.author
  let publisher := book_data.publisher
  let pub_year := book_data.pub_year
  let isbn := book_data.upc
  let binding := book_data.binding
  let pages := book_data.pages
  let language := book_data.language
  let description := book_data.description
  let condition := book_data.condition
  let lang_map : List (String × String) :=
    [("eng", "Anglais"), ("fra", "Français"), ("fre", "Français"),
     ("spa", "Espagnol"), ("deu", "Allemand"), ("ger", "Allemand")]
  let lang_display := (lang_map.lookup (pyLower language)).getD language
  let condition_desc :=
    match config.CONDITIONS.lookup (pyUpper condition) with
    | some info => info.description
    | none => ""
  let html := s!"
<div style=\"font-family: Arial, sans-serif; max-width: 700px; margin: 0 auto; padding: 20px; background: #ffffff;\">
    
    <!-- Header -->
    <div style=\"background: #2c3e50; color: white; padding: 20px; border-radius: 8px 8px 0 0;\">
        <h1 style=\"margin: 0; font-size: 24px;\">{title}</h1>
        <p style=\"margin: 10px 0 0 0; font-size: 16px; opacity: 0.9;\">par {author}</p>
    </div>
    
    <!-- Details Box -->
    <div style=\"background: #ecf0f1; padding: 20px; border-left: 4px solid #3498db;\">
        <table style=\"width: 100%; border-collapse: collapse;\">
            <tr>
                <td style=\"padding: 8px 0; font-weight: bold; width: 150px;\">📚 Auteur:</td>
                <td style=\"padding: 8px 0;\">{author}</td>
            </tr>
            <tr>
                <td style=\"padding: 8px 0; font-weight: bold;\">🏢 Éditeur:</td>
                <td style=\"padding: 8px 0;\">{publisher} {pub_year}</td>
            </tr>
            <tr>
                <td style=\"padding: 8px 0; font-weight: bold;\">🔢 ISBN:</td>
                <td style=\"padding: 8px 0;\">{isbn}</td>
            </tr>
            <tr>
                <td style=\"padding: 8px 0; font-weight: bold;\">📖 Format:</td>
                <td style=\"padding: 8px 0;\">{binding}</td>
            </tr>
            <tr>
                <td style=\"padding: 8px 0; font-weight: bold;\">📄 Pages:</td>
                <td style=\"padding: 8px 0;\">{pages}</td>
            </tr>
            <tr>
                <td style=\"padding: 8px 0; font-weight: bold;\">🌍 Langue:</td>
                <td style=\"padding: 8px 0;\">{lang_display}</td>
            </tr>
            <tr>
                <td style=\"padding: 8px 0; font-weight: bold;\">⭐ Condition:</td>
                <td style=\"padding: 8px 0;\">{condition_desc}</td>
            </tr>
        </table>
    </div>
    
    <!-- Description -->
    <div style=\"margin-top: 20px; padding: 20px; background: #f8f9fa; border-radius: 4px;\">
        <h2 style=\"color: #2c3e50; font-size: 18px; margin-top: 0;\">📝 À propos de ce livre</h2>
        <p style=\"line-height: 1.6; color: #555;\">{description}</p>
    </div>
    
    <!-- Footer -->
    <div style=\"margin-top: 30px; padding: 20px; background: #e8f5e9; border-radius: 4px; border-left: 4px solid #4caf50;\">
        <h3 style=\"color: #2e7d32; margin-top: 0; font-size: 16px;\">✅ Pourquoi acheter chez nous?</h3>
        <ul style=\"margin: 10px 0; padding-left: 20px; color: #555;\">
            <li style=\"margin-bottom: 8px;\">📦 <strong>Expédition rapide</strong> depuis Valcourt, Québec</li>
            <li style=\"margin-bottom: 8px;\">⭐ <strong>Vendeur professionnel</strong> avec excellentes évaluations</li>
            <li style=\"margin-bottom: 8px;\">🇨🇦 <strong>Entreprise québécoise</strong> - Service en français</li>
            <li style=\"margin-bottom: 8px;\">💯 <strong>Satisfaction garantie</strong> ou remboursement</li>
        </ul>
    </div>
    
    <!-- Contact -->
    <div style=\"margin-top: 20px; padding: 15px; text-align: center; font-size: 12px; color: #777; border-top: 1px solid #ddd;\">
        <p style=\"margin: 5px 0;\">Des questions? N\x27hésitez pas à nous contacter!</p>
        <p style=\"margin: 5px 0;\">Merci de votre confiance 🙏</p>
    </div>
    
</div>
"
  pyStrip html

end utils

namespace enrichment

/-- `merge_book_data`: field-by-field `or`-cascade merge of the two source
records, the manifest row and the scan record.  The upc and condition dict reads
target NOT NULL columns, so they are plain strings here. -/
def merge_book_data (gb_data ol_data : Option PartialRecord)
    (manifest_data : ManifestData) (scan_data : ScanInput) : Merged :=
  let upc := scan_data.upc
  let title := pyOrD [manifest_data.title, gb_data.bind (fun g => g.title),
    ol_data.bind (fun o => o.title)] "Titre inconnu"
  let author := pyOrD [gb_data.bind (fun g => g.author),
    ol_data.bind (fun o => o.author)] "Auteur inconnu"
  let publisher := pyOrD [gb_data.bind (fun g => g.publisher),
    ol_data.bind (fun o => o.publisher)] ""
  let pub_year := pyOrD [gb_data.bind (fun g => g.pub_year),
    ol_data.bind (fun o => o.pub_year)] ""
  let pages := pyOrDInt [gb_data.bind (fun g => g.pages),
    ol_data.bind (fun o => o.pages)] config.DEFAULT_PAGES
  let binding := config.DEFAULT_BINDING
  let language := pyOrD [gb_data.bind (fun g => g.language)] config.DEFAULT_LANGUAGE
  let description := pyOrD [gb_data.bind (fun g => g.description),
    ol_data.bind (fun o => o.description)] "Description non disponible."
  let image_url := pyOrD [gb_data.bind (fun g => g.image_url),
    ol_data.bind (fun o => o.image_url)] ""
  let condition := scan_data.condition
  let msrp := manifest_data.msrp.getD 0
  let start_price := utils.calculate_price msrp condition
  let ebay_category := config.EBAY_CATEGORY_BOOKS
  let ebay_condition_id := (config.get_condition_info condition).id
  let description_html := utils.generate_ebay_description
    (BookDesc.mk title author publisher pub_year upc binding pages language
      description condition)
  let sources := (if gb_data.isSome then ["GoogleBooks"] else []) ++
    (if ol_data.isSome then ["OpenLibrary"] else [])
  let data_source := if sources.isEmpty then "None"
    else String.intercalate "+" sources
  Merged.mk upc title author publisher pub_year pages binding language
    description image_url condition msrp start_price ebay_category
    ebay_condition_id description_html data_source

end enrichment

namespace agg

open ebay_export

/-- Sum of the quantities of a list of scans. -/
def qsum (l : List Scan) : ℤ := (l.map Scan.quantity).sum

/-- The ids of a list of scans, in order. -/
def idsOf (l : List Scan) : List ℤ := l.map Scan.id

/-- The scans of `scans` whose dict key is `k`, in order. -/
def matched (k : String) (scans : List Scan) : List Scan :=
  scans.filter (fun s => keyOf s == k)

/-- The effect of one loop iteration on the entry stored at the key of the scan. -/
def stepEntry (o : Option AggEntry) (scan : Scan) : AggEntry :=
  match o with
  | none => ⟨scan, 0 + scan.quantity, [] ++ [scan.id]⟩
  | some e => ⟨e.scan_data, e.quantity + scan.quantity, e.scan_ids ++ [scan.id]⟩

/-- Specification of a dict entry after absorbing the matching scans `ms`. -/
def combine (o : Option AggEntry) (ms : List Scan) : Option AggEntry :=
  match o, ms with
  | none, [] => none
  | none, s :: rest => some ⟨s, s.quantity + qsum rest, s.id :: idsOf rest⟩
  | some e, ms => some ⟨e.scan_data, e.quantity + qsum ms, e.scan_ids ++ idsOf ms⟩

/-- Invariant of the aggregation dict: distinct keys, and each entry is
stored under the key of its own representative scan. -/
def goodAcc (acc : List (String × AggEntry)) : Prop :=
  (acc.map Prod.fst).Nodup ∧ ∀ kv ∈ acc, keyOf kv.2.scan_data = kv.1

end agg

/-- A valid 13-digit identifier in the sense of the specification: 13
characters, all decimal digits, with a correct ISO mod-10 check digit
(alternating weights 1,3 over all 13 digits). -/
def validISBN13 (s : String) : Prop :=
  s.length = 13 ∧ (∀ c ∈ s.data, c.isDigit = true) ∧ utils.isbn13wsum s.data 0 % 10 = 0

instance (s : String) : Decidable (validISBN13 s) := by
  unfold validISBN13
  infer_instance

/-- A scan of identifier 111, condition USED, quantity 2 (id 1): the
concrete aggregation scenario of the specification. -/
def sampleScan111a : Scan :=
  ⟨1, "2025-01-01T00:00:00", "C001", "111", "USED", 2, none, none, none, none,
   none, none, none, none, none, none, none, none, none, none, none, none, none,
   none, none, none, none, 1, 0⟩

/-- A second scan of identifier 111, condition USED, quantity 3 (id 2). -/
def sampleScan111b : Scan :=
  ⟨2, "2025-01-01T00:00:01", "C001", "111", "USED", 3, none, none, none, none,
   none, none, none, none, none, none, none, none, none, none, none, none, none,
   none, none, none, none, 1, 0⟩

/-- A pending DONATION-condition scan used as a witness input. -/
def sampleDonationScan : Scan :=
  ⟨3, "2025-01-02T00:00:00", "C002", "222", "DONATION", 1, none, none, none, none,
   none, none, none, none, none, none, none, none, none, none, none, none, none,
   none, none, none, none, 1, 0⟩

/-- A record-store state with no pending records. -/
def sampleStoreEmpty : ebay_export.RecordStore :=
  ⟨[], fun _ => [], fun _ => 0⟩

/-- A record-store state whose only pending record is a donation. -/
def sampleStoreDonation : ebay_export.RecordStore :=
  ⟨[sampleDonationScan], fun _ => [], fun _ => 0⟩

/-- A Google Books environment in which every request times out. -/
def envTimeoutGB : ℕ → enrichment.RequestOutcome enrichment.GBooksData :=
  fun _ => enrichment.RequestOutcome.timeout

/-- An OpenLibrary environment in which every request times out. -/
def envTimeoutOL : ℕ → enrichment.RequestOutcome (List (String × enrichment.OLEntry)) :=
  fun _ => enrichment.RequestOutcome.timeout

/-- An empty manifest row. -/
def emptyManifest : enrichment.ManifestData := ⟨none, none⟩

/-- A concrete scan input for the merge. -/
def sampleScanInput : enrichment.ScanInput := ⟨"9780306406157", "USED"⟩

/-- A Google Books partial record carrying author X. -/
def sampleGBRecord : enrichment.PartialRecord :=
  ⟨some "X", none, none, none, none, none, some "eng", none, "google_books"⟩

/-- An OpenLibrary partial record carrying author Y. -/
def sampleOLRecord : enrichment.PartialRecord :=
  ⟨some "Y", none, none, none, none, none, none, none, "openlibrary"⟩

namespace agg

open ebay_export

theorem combine_nil (o : Option AggEntry) : combine o [] = o := by
  cases o <;> simp [combine, qsum, idsOf]

theorem combine_step (o : Option AggEntry) (s : Scan) (ms : List Scan) :
    combine (some (stepEntry o s)) ms = combine o (s :: ms) := by
  cases o <;>
    simp [combine, stepEntry, qsum, idsOf, add_assoc, List.append_assoc]

theorem lookup_cons_entry (a k : String) (b : AggEntry)
    (l : List (String × AggEntry)) :
    List.lookup k ((a, b) :: l) = if k = a then some b else List.lookup k l := by
  by_cases h : k = a
  · simp [List.lookup, h]
  · have hb : (k == a) = false := by simp [h]
    simp [List.lookup, hb, h]

theorem lookup_agg_update (acc : List (String × AggEntry)) (scan : Scan) (k : String) :
    (acc.map (fun kv =>
      if kv.1 = keyOf scan then
        (kv.1, ⟨kv.2.scan_data, kv.2.quantity + scan.quantity,
          kv.2.scan_ids ++ [scan.id]⟩)
      else kv)).lookup k =
      if k = keyOf scan then
        (acc.lookup k).map (fun e =>
          ⟨e.scan_data, e.quantity + scan.quantity, e.scan_ids ++ [scan.id]⟩)
      else acc.lookup k := by
  induction acc with
  | nil => simp [List.lookup]
  | cons kv rest ih =>
    obtain ⟨a, b⟩ := kv
    simp only [List.map_cons]
    by_cases h1 : a = keyOf scan
    · rw [if_pos h1]
      rw [lookup_cons_entry, lookup_cons_entry]
      by_cases h2 : k = a
      · rw [if_pos h2, if_pos h2, if_pos (h2.trans h1)]
        rfl
      · rw [if_neg h2, if_neg h2, ih]
    · rw [if_neg h1]
      rw [lookup_cons_entry, lookup_cons_entry]
      by_cases h2 : k = a
      · have h4 : ¬k = keyOf scan := fun hk => h1 (h2.symm.trans hk)
        rw [if_pos h2, if_pos h2, if_neg h4]
      · rw [if_neg h2, if_neg h2, ih]

theorem lookup_append_single (acc : List (String × AggEntry)) (key k : String)
    (e : AggEntry) :
    (acc ++ [(key, e)]).lookup k =
      match acc.lookup k with
      | some v => some v
      | none => if k = key then some e else none := by
  induction acc with
  | nil =>
    rw [List.nil_append, lookup_cons_entry]
    rfl
  | cons kv rest ih =>
    obtain ⟨a, b⟩ := kv
    rw [List.cons_append, lookup_cons_entry, lookup_cons_entry]
    by_cases h2 : k = a
    · rw [if_pos h2, if_pos h2]
    · rw [if_neg h2, if_neg h2, ih]

theorem lookup_aggStep (acc : List (String × AggEntry)) (scan : Scan) (k : String) :
    (aggStep acc scan).lookup k =
      if k = keyOf scan then some (stepEntry (acc.lookup k) scan) else acc.lookup k := by
  simp only [aggStep]
  by_cases hin : (List.lookup (keyOf scan) acc).isSome
  · rw [if_pos hin, lookup_agg_update]
    by_cases hk : k = keyOf scan
    · subst hk
      obtain ⟨e, he⟩ := Option.isSome_iff_exists.mp hin
      rw [if_pos rfl, if_pos rfl, he]
      rfl
    · rw [if_neg hk, if_neg hk]
  · rw [if_neg hin, lookup_agg_update]
    by_cases hk : k = keyOf scan
    · subst hk
      have hnone : List.lookup (keyOf scan) acc = none := by
        cases h : List.lookup (keyOf scan) acc
        · rfl
        · rw [h] at hin
          simp at hin
      rw [if_pos rfl, if_pos rfl, lookup_append_single, hnone]
      simp [stepEntry]
    · rw [if_neg hk, if_neg hk, lookup_append_single]
      cases h : List.lookup k acc
      · rw [if_neg hk]
      · rfl

theorem foldl_aggStep_lookup (scans : List Scan) :
    ∀ (acc : List (String × AggEntry)) (k : String),
      ((scans.foldl aggStep acc).lookup k) = combine (acc.lookup k) (matched k scans) := by
  induction scans with
  | nil =>
    intro acc k
    simp [matched, combine_nil]
  | cons s rest ih =>
    intro acc k
    rw [List.foldl_cons, ih, lookup_aggStep]
    unfold matched
    by_cases hk : k = keyOf s
    · rw [if_pos hk]
      have hb : (keyOf s == k) = true := by simp [beq_iff_eq, hk]
      simp only [List.filter_cons, hb, if_true]
      rw [combine_step]
    · rw [if_neg hk]
      have hb : ¬((keyOf s == k) = true) := by simp [beq_iff_eq]; exact fun h => hk h.symm
      simp only [List.filter_cons, hb]
      simp [hb]

theorem lookup_none_keys (l : List (String × AggEntry)) (k : String)
    (h : List.lookup k l = none) : ∀ kv ∈ l, kv.1 ≠ k := by
  induction l with
  | nil => simp
  | cons kv rest ih =>
    obtain ⟨a, b⟩ := kv
    rw [lookup_cons_entry] at h
    by_cases hk : k = a
    · rw [if_pos hk] at h
      exact absurd h (by simp)
    · rw [if_neg hk] at h
      intro kv hm
      rcases List.mem_cons.mp hm with h1 | h1
      · subst h1
        exact fun he => hk he.symm
      · exact ih h kv h1

theorem lookup_some_mem (l : List (String × AggEntry)) (k : String) (e : AggEntry)
    (h : List.lookup k l = some e) : (k, e) ∈ l := by
  induction l with
  | nil => simp [List.lookup] at h
  | cons kv rest ih =>
    obtain ⟨a, b⟩ := kv
    rw [lookup_cons_entry] at h
    by_cases hk : k = a
    · rw [if_pos hk] at h
      injection h with h
      subst hk
      subst h
      exact List.mem_cons_self _ _
    · rw [if_neg hk] at h
      exact List.mem_cons_of_mem _ (ih h)

theorem lookup_of_mem_nodup (acc : List (String × AggEntry))
    (hnd : (acc.map Prod.fst).Nodup) (kv : String × AggEntry) (hm : kv ∈ acc) :
    List.lookup kv.1 acc = some kv.2 := by
  induction acc with
  | nil => simp at hm
  | cons hd rest ih =>
    obtain ⟨a, b⟩ := hd
    rw [List.map_cons, List.nodup_cons] at hnd
    rw [lookup_cons_entry]
    rcases List.mem_cons.mp hm with h1 | h1
    · subst h1
      rw [if_pos rfl]
    · have hne : kv.1 ≠ a := by
        intro he
        have hmem : kv.1 ∈ rest.map Prod.fst := List.mem_map_of_mem Prod.fst h1
        rw [he] at hmem
        exact hnd.1 hmem
      rw [if_neg hne]
      exact ih hnd.2 h1

theorem goodAcc_nil : goodAcc [] := ⟨List.nodup_nil, by simp⟩

theorem goodAcc_aggStep (acc : List (String × AggEntry)) (scan : Scan)
    (h : goodAcc acc) : goodAcc (aggStep acc scan) := by
  obtain ⟨hnd, hco⟩ := h
  have h1 : goodAcc (if (List.lookup (keyOf scan) acc).isSome then acc
      else acc ++ [(keyOf scan, ⟨scan, 0, []⟩)]) := by
    split
    · exact ⟨hnd, hco⟩
    · next hns =>
      have hnone : List.lookup (keyOf scan) acc = none := by
        cases h : List.lookup (keyOf scan) acc
        · rfl
        · rw [h] at hns
          simp at hns
      constructor
      · rw [List.map_append]
        refine List.Nodup.append hnd (by simp) ?_
        intro a ha hb
        simp only [List.map_cons, List.map_nil, List.mem_singleton] at hb
        obtain ⟨kv, hkv, hfst⟩ := List.mem_map.mp ha
        exact lookup_none_keys acc (keyOf scan) hnone kv hkv (hfst.trans hb)
      · intro kv hm
        rcases List.mem_append.mp hm with hm | hm
        · exact hco kv hm
        · simp only [List.mem_singleton] at hm
          subst hm
          rfl
  generalize hacc1 : (if (List.lookup (keyOf scan) acc).isSome then acc
      else acc ++ [(keyOf scan, ⟨scan, 0, []⟩)]) = acc1 at h1
  simp only [aggStep, hacc1]
  constructor
  · have hfst : ((acc1.map (fun kv =>
        if kv.1 = keyOf scan then
          (kv.1, (⟨kv.2.scan_data, kv.2.quantity + scan.quantity,
            kv.2.scan_ids ++ [scan.id]⟩ : AggEntry))
        else kv)).map Prod.fst) = acc1.map Prod.fst := by
      rw [List.map_map]
      refine List.map_congr_left ?_
      intro kv _
      by_cases hk : kv.1 = keyOf scan
      · simp [hk]
      · simp [hk]
    rw [hfst]
    exact h1.1
  · intro kv hm
    obtain ⟨kv0, hkv0, heq⟩ := List.mem_map.mp hm
    by_cases hk : kv0.1 = keyOf scan
    · rw [if_pos hk] at heq
      rw [← heq]
      exact h1.2 kv0 hkv0
    · rw [if_neg hk] at heq
      rw [← heq]
      exact h1.2 kv0 hkv0

theorem goodAcc_foldl (scans : List Scan) :
    ∀ acc, goodAcc acc → goodAcc (scans.foldl aggStep acc) := by
  induction scans with
  | nil => exact fun acc h => h
  | cons s rest ih =>
    intro acc h
    exact ih (aggStep acc s) (goodAcc_aggStep acc s h)

theorem mem_snd_lookup (acc : List (String × AggEntry)) (hg : goodAcc acc)
    (g : AggEntry) (hm : g ∈ acc.map Prod.snd) :
    List.lookup (keyOf g.scan_data) acc = some g := by
  obtain ⟨kv, hkv, hsnd⟩ := List.mem_map.mp hm
  have hk : keyOf g.scan_data = kv.1 := by
    rw [← hsnd]
    exact hg.2 kv hkv
  rw [hk]
  rw [lookup_of_mem_nodup acc hg.1 kv hkv, hsnd]

theorem mem_snd_of_lookup (acc : List (String × AggEntry)) (k : String)
    (g : AggEntry) (h : List.lookup k acc = some g) : g ∈ acc.map Prod.snd :=
  List.mem_map_of_mem Prod.snd (lookup_some_mem acc k g h)

theorem append_underscore_inj (l1 r1 l2 r2 : List Char)
    (h1 : ('_' : Char) ∉ l1) (h2 : ('_' : Char) ∉ l2)
    (he : l1 ++ '_' :: r1 = l2 ++ '_' :: r2) : l1 = l2 ∧ r1 = r2 := by
  induction l1 generalizing l2 with
  | nil =>
    cases l2 with
    | nil => simpa using he
    | cons c t =>
      rw [List.nil_append, List.cons_append] at he
      injection he with hc ht
      subst hc
      exact absurd (List.mem_cons_self _ _) h2
  | cons c t ih =>
    cases l2 with
    | nil =>
      rw [List.nil_append, List.cons_append] at he
      injection he with hc ht
      subst hc
      exact absurd (List.mem_cons_self _ _) h1
    | cons d t2 =>
      rw [List.cons_append, List.cons_append] at he
      injection he with hc ht
      have h1' : ('_' : Char) ∉ t := fun hm => h1 (List.mem_cons_of_mem _ hm)
      have h2' : ('_' : Char) ∉ t2 := fun hm => h2 (List.mem_cons_of_mem _ hm)
      obtain ⟨hl, hr⟩ := ih t2 h1' h2' ht
      exact ⟨by rw [hc, hl], hr⟩

theorem keyOf_data (s : Scan) :
    (keyOf s).data = s.upc.data ++ '_' :: s.condition.data := by
  have h : (keyOf s).data = (s.upc.data ++ ['_']) ++ s.condition.data := rfl
  rw [h, List.append_assoc]
  rfl

theorem keyOf_eq_iff (a b : Scan) (ha : ('_' : Char) ∉ a.upc.data)
    (hb : ('_' : Char) ∉ b.upc.data) :
    keyOf a = keyOf b ↔ a.upc = b.upc ∧ a.condition = b.condition := by
  constructor
  · intro h
    have hd : a.upc.data ++ '_' :: a.condition.data =
        b.upc.data ++ '_' :: b.condition.data := by
      rw [← keyOf_data, ← keyOf_data, h]
    obtain ⟨hu, hc⟩ := append_underscore_inj _ _ _ _ ha hb hd
    exact ⟨String.ext hu, String.ext hc⟩
  · rintro ⟨h1, h2⟩
    unfold keyOf
    rw [h1, h2]

end agg


theorem isbn13wsum_append (xs ys : List Char) (i : ℕ) :
    utils.isbn13wsum (xs ++ ys) i = utils.isbn13wsum xs i + utils.isbn13wsum ys (i + xs.length) := by
  induction xs generalizing i with
  | nil => simp [utils.isbn13wsum]
  | cons c rest ih =>
    simp only [List.cons_append, utils.isbn13wsum, List.length_cons, List.append_eq]
    rw [ih (i + 1)]
    have h1 : i + 1 + rest.length = i + (rest.length + 1) := by omega
    rw [h1, ← Nat.add_assoc]

theorem digitToChar_charToDigit (c : Char) (h : c.isDigit = true) :
    utils.digitToChar (utils.charToDigit c) = c := by
  simp only [Char.isDigit, Bool.and_eq_true, decide_eq_true_eq] at h
  obtain ⟨h1, h2⟩ := h
  have g1 : (48 : ℕ) ≤ c.toNat := h1
  unfold utils.digitToChar utils.charToDigit
  have h48 : 48 + (c.toNat - 48) = c.toNat := by omega
  rw [h48]
  exact Char.ofNat_toNat c

theorem charToDigit_le_nine (c : Char) (h : c.isDigit = true) :
    utils.charToDigit c ≤ 9 := by
  simp only [Char.isDigit, Bool.and_eq_true, decide_eq_true_eq] at h
  obtain ⟨h1, h2⟩ := h
  have g2 : c.toNat ≤ 57 := h2
  unfold utils.charToDigit
  omega

/-- C5: for every reference price and condition, `calculate_price` returns
the reference price times the per-condition factor rounded to 2 decimal
places, except that when the reference price is at most 0 or the computed
price is below the configured floor it returns the floor price; in
particular `price(0, c)` equals the floor for every condition `c`, and
`price(100, "USED")` equals `max(35.00, floor)`. -/
theorem calculate_price_spec :
    (∀ (msrp : ℚ) (condition : String),
        utils.calculate_price msrp condition =
          if msrp ≤ 0 then config.MIN_PRICE
          else if msrp * config.get_price_factor (pyUpper condition) < config.MIN_PRICE then
            config.MIN_PRICE
          else utils.pyRound2 (msrp * config.get_price_factor (pyUpper condition))) ∧
    (∀ condition : String, utils.calculate_price 0 condition = config.MIN_PRICE) ∧
    utils.calculate_price 100 "USED" = max 35 config.MIN_PRICE := by
  refine ⟨fun msrp condition => ?_, fun condition => ?_, ?_⟩
  · unfold utils.calculate_price
    rcases le_or_lt msrp 0 with h | h
    · rw [if_pos (Or.inr h), if_pos h]
    · have h0 : ¬(msrp = 0 ∨ msrp ≤ 0) := by
        push_neg
        exact ⟨ne_of_gt h, h⟩
      rw [if_neg h0, if_neg (not_le.mpr h)]
      show utils.pyRound2
          (if msrp * config.get_price_factor (pyUpper condition) < config.MIN_PRICE then
            config.MIN_PRICE
          else msrp * config.get_price_factor (pyUpper condition)) = _
      by_cases hf : msrp * config.get_price_factor (pyUpper condition) < config.MIN_PRICE
      · rw [if_pos hf, if_pos hf]
        norm_num [utils.pyRound2, config.MIN_PRICE]
      · rw [if_neg hf, if_neg hf]
  · unfold utils.calculate_price
    simp
  · have hfac : config.get_price_factor (pyUpper "USED") = 0.35 := by rfl
    have h0 : ¬((100 : ℚ) = 0 ∨ (100 : ℚ) ≤ 0) := by norm_num
    unfold utils.calculate_price
    rw [if_neg h0]
    show utils.pyRound2
        (if (100 : ℚ) * config.get_price_factor (pyUpper "USED") < config.MIN_PRICE then
          config.MIN_PRICE
        else (100 : ℚ) * config.get_price_factor (pyUpper "USED")) = _
    rw [hfac]
    norm_num [utils.pyRound2, config.MIN_PRICE]

/-- C10: for every non-negative integer number of grams `g`,
`weight_grams_to_major_minor g` returns `(g div 1000, g mod 1000)` and
`major_minor_to_grams` applied to that pair returns `g` again. -/
theorem weight_grams_round_trip (g : ℤ) (h : 0 ≤ g) :
    utils.weight_grams_to_major_minor g = (g / 1000, g % 1000) ∧
    utils.major_minor_to_grams (utils.weight_grams_to_major_minor g).1
      (utils.weight_grams_to_major_minor g).2 = g := by
  unfold utils.weight_grams_to_major_minor utils.major_minor_to_grams
  refine ⟨?_, ?_⟩
  · rw [Int.fdiv_eq_ediv _ (by norm_num), Int.fmod_eq_emod _ (by norm_num)]
  · have hg := Int.fdiv_add_fmod g 1000
    dsimp only
    linarith

/-- C9: for every valid 13-digit identifier that begins with "978",
converting it to ISBN-10 and back yields the identifier again. -/
theorem isbn_round_trip (x : String) (hv : validISBN13 x)
    (hp : startswith x "978" = true) :
    (utils.isbn13_to_isbn10 x).bind utils.isbn10_to_isbn13 = some x := by
  obtain ⟨hlen, hdig, hsum⟩ := hv
  have hld : x.data.length = 13 := hlen
  have htake : x.data.take 3 = ['9', '7', '8'] := by
    have hp' := hp
    unfold startswith at hp'
    simpa using hp'
  have hm : (x.data.drop 3).length = 10 := by simp [hld]
  have hbase : ((x.data.drop 3).take 9).length = 9 := by simp [hm]
  have hone : ((x.data.drop 3).drop 9).length = 1 := by
    rw [List.length_drop, hm]
  obtain ⟨c12, hc12⟩ := List.length_eq_one.mp hone
  have hsplit9 : x.data.drop 3 = (x.data.drop 3).take 9 ++ [c12] := by
    conv_lhs => rw [← List.take_append_drop 9 (x.data.drop 3)]
    rw [hc12]
  have hsplit3 : x.data = ['9', '7', '8'] ++ ((x.data.drop 3).take 9 ++ [c12]) := by
    conv_lhs => rw [← List.take_append_drop 3 x.data]
    rw [htake, ← hsplit9]
  have h13 : ¬(x.length ≠ 13) := by
    simp [String.length, hld]
  have hpneg : ¬((!(startswith x "978" || startswith x "979")) = true) := by
    rw [hp]
    simp
  -- the forward conversion
  have hfwd : utils.isbn13_to_isbn10 x =
      some (String.mk ((x.data.drop 3).take 9 ++
        [if (11 - utils.isbn10wsum ((x.data.drop 3).take 9) 0 % 11) % 11 = 10 then 'X'
         else utils.digitToChar ((11 - utils.isbn10wsum ((x.data.drop 3).take 9) 0 % 11) % 11)])) := by
    unfold utils.isbn13_to_isbn10
    rw [if_neg h13, if_neg hpneg]
  rw [hfwd]
  show utils.isbn10_to_isbn13 _ = some x
  -- the backward conversion
  have hlen10 : ¬((String.mk ((x.data.drop 3).take 9 ++
      [if (11 - utils.isbn10wsum ((x.data.drop 3).take 9) 0 % 11) % 11 = 10 then 'X'
       else utils.digitToChar ((11 - utils.isbn10wsum ((x.data.drop 3).take 9) 0 % 11) % 11)])).length ≠ 10) := by
    simp [String.length, hbase]
  unfold utils.isbn10_to_isbn13
  rw [if_neg hlen10]
  have hslice : pySliceTo (String.mk ((x.data.drop 3).take 9 ++
      [if (11 - utils.isbn10wsum ((x.data.drop 3).take 9) 0 % 11) % 11 = 10 then 'X'
       else utils.digitToChar ((11 - utils.isbn10wsum ((x.data.drop 3).take 9) 0 % 11) % 11)])) (-1) =
      String.mk ((x.data.drop 3).take 9) := by
    unfold pySliceTo
    rw [if_neg (by norm_num)]
    congr 1
    have hlen' : (String.mk ((x.data.drop 3).take 9 ++
        [if (11 - utils.isbn10wsum ((x.data.drop 3).take 9) 0 % 11) % 11 = 10 then 'X'
         else utils.digitToChar ((11 - utils.isbn10wsum ((x.data.drop 3).take 9) 0 % 11) % 11)])).length = 10 := by
      simp [String.length, hbase]
    rw [hlen']
    norm_num
    exact List.take_left' hbase
  rw [hslice]
  -- align the reconstructed string with the original
  have hdata : ("978" ++ String.mk ((x.data.drop 3).take 9)).data =
      '9' :: '7' :: '8' :: (x.data.drop 3).take 9 := rfl
  rw [hdata]
  -- it remains to show the recomputed check digit matches the original last digit
  have hc12dig : c12.isDigit = true := by
    apply hdig
    rw [hsplit3]
    simp
  have hwlen : ('9' :: '7' :: '8' :: (x.data.drop 3).take 9).length = 12 := by
    simp [hbase]
  have hsum' : (utils.isbn13wsum ('9' :: '7' :: '8' :: (x.data.drop 3).take 9) 0 +
      utils.charToDigit c12) % 10 = 0 := by
    have h1 : x.data = ('9' :: '7' :: '8' :: (x.data.drop 3).take 9) ++ [c12] := by
      conv_lhs => rw [hsplit3]
      simp only [List.cons_append, List.nil_append]
    rw [h1] at hsum
    rw [isbn13wsum_append] at hsum
    rw [hwlen] at hsum
    simpa [utils.isbn13wsum, utils.charToDigit] using hsum
  have hv9 : utils.charToDigit c12 ≤ 9 := charToDigit_le_nine c12 hc12dig
  have hck : (10 - utils.isbn13wsum ('9' :: '7' :: '8' :: (x.data.drop 3).take 9) 0 % 10) % 10 =
      utils.charToDigit c12 := by omega
  have hgoal : ('9' :: '7' :: '8' :: (x.data.drop 3).take 9) ++
      [utils.digitToChar ((10 - utils.isbn13wsum ('9' :: '7' :: '8' :: (x.data.drop 3).take 9) 0 % 10) % 10)] =
      x.data := by
    rw [hck, digitToChar_charToDigit c12 hc12dig]
    conv_rhs => rw [hsplit3]
    simp only [List.cons_append, List.nil_append]
  exact congrArg (fun l => some (String.mk l)) hgoal

/-- Witness for C9 at the concrete valid identifier 9780306406157. -/
theorem isbn_round_trip_witness :
    validISBN13 "9780306406157" ∧ startswith "9780306406157" "978" = true ∧
    (utils.isbn13_to_isbn10 "9780306406157").bind utils.isbn10_to_isbn13 =
      some "9780306406157" :=
  ⟨by decide, by decide, isbn_round_trip "9780306406157" (by decide) (by decide)⟩

/-- C1: for every enriched record (including records with every optional
field absent) and every aggregated quantity, `build_ebay_row` returns a
row whose length equals the declared column count, the 51 entries of
`EBAY_CSV_HEADERS`. -/
theorem build_ebay_row_length (scan_data : Scan) (aggregated_quantity : ℤ) :
    (ebay_export.build_ebay_row scan_data aggregated_quantity).length =
      config.EBAY_CSV_HEADERS.length ∧
    config.EBAY_CSV_HEADERS.length = 51 := by
  constructor
  · unfold ebay_export.build_ebay_row ebay_export.ebay_row_full
    simp [List.length_take, List.length_append, List.length_replicate]
    rfl
  · rfl

/-- C3: the off-by-one column misalignment of `build_ebay_row`.  The full
52-cell construction ends in the postal code and is sliced back to 51
cells, dropping that postal-code cell; 12 blank shipping cells are
emitted where the header block only reserves 11 shipping columns, so the
cell under the `C:Author` header is always the (blank) regional-compliance
cell, the author, book title, language, binding, publication year and
weight cells each sit one column to the right of their like-named
headers, and the final cell, under the `PostalCode` header, is the
package width. -/
theorem build_ebay_row_misalignment (scan_data : Scan) (aggregated_quantity : ℤ) :
    (ebay_export.build_ebay_row scan_data aggregated_quantity).length = 51 ∧
    (ebay_export.ebay_row_full scan_data aggregated_quantity).length = 52 ∧
    ebay_export.build_ebay_row scan_data aggregated_quantity =
      (ebay_export.ebay_row_full scan_data aggregated_quantity).take 51 ∧
    (ebay_export.ebay_row_full scan_data aggregated_quantity)[51]? =
      some (Cell.s config.EBAY_POSTAL_CODE) ∧
    ((ebay_export.ebay_row_full scan_data aggregated_quantity).drop 23).take 12 =
      List.replicate 12 (Cell.s "") ∧
    (config.EBAY_CSV_HEADERS.drop 23).take 12 =
      ["Shipping service 1 option", "Shipping service 1 cost",
       "Shipping service 1 priority", "Shipping service 2 option",
       "Shipping service 2 cost", "Shipping service 2 priority",
       "Max dispatch time", "Returns accepted option",
       "Returns within option", "Refund option",
       "Return shipping cost paid by", "Shipping profile name"] ∧
    config.EBAY_CSV_HEADERS[50]? = some "PostalCode" ∧
    (ebay_export.build_ebay_row scan_data aggregated_quantity)[50]? =
      some (Cell.q (scan_data.pkg_width.getD 0)) ∧
    config.EBAY_CSV_HEADERS[39]? = some "C:Author" ∧
    (ebay_export.build_ebay_row scan_data aggregated_quantity)[39]? = some (Cell.s "") ∧
    (ebay_export.build_ebay_row scan_data aggregated_quantity)[40]? =
      some (Cell.s (utils.truncate_text (scan_data.author.getD "Auteur inconnu") 50 "...")) ∧
    config.EBAY_CSV_HEADERS[40]? = some "C:Book Title" ∧
    (ebay_export.build_ebay_row scan_data aggregated_quantity)[41]? =
      some (Cell.s (utils.truncate_text (scan_data.title.getD "Livre") 80 "...")) ∧
    config.EBAY_CSV_HEADERS[41]? = some "C:Language" ∧
    (ebay_export.build_ebay_row scan_data aggregated_quantity)[42]? =
      some (Cell.s ((ebay_export.lang_map.lookup
        (pyLower (scan_data.language.getD "eng"))).getD "English")) ∧
    config.EBAY_CSV_HEADERS[42]? = some "C:Format" ∧
    (ebay_export.build_ebay_row scan_data aggregated_quantity)[43]? =
      some (Cell.s (scan_data.binding.getD config.DEFAULT_BINDING)) ∧
    config.EBAY_CSV_HEADERS[43]? = some "C:Publication Year" ∧
    (ebay_export.build_ebay_row scan_data aggregated_quantity)[44]? =
      some (Cell.s (scan_data.pub_year.getD "")) ∧
    config.EBAY_CSV_HEADERS[44]? = some "WeightMajor" ∧
    (ebay_export.build_ebay_row scan_data aggregated_quantity)[45]? =
      some (ebay_export.weight_cells scan_data).1 ∧
    config.EBAY_CSV_HEADERS[45]? = some "WeightMinor" ∧
    (ebay_export.build_ebay_row scan_data aggregated_quantity)[46]? =
      some (ebay_export.weight_cells scan_data).2 := by
  refine ⟨?_, ?_, rfl, ?_, ?_, rfl, rfl, ?_, rfl, ?_, ?_, rfl, ?_, rfl, ?_, rfl, ?_, rfl, ?_,
    rfl, ?_, rfl, ?_⟩ <;>
    rfl

/-- C7: for every list of scan records (whose identifiers, being digit
strings, contain no underscore), the aggregation partitions the records
into groups keyed by the pair (identifier, condition): the representative
of each group comes from the list, its quantity is the sum of the
quantities of the records with that identifier and condition, its id list
collects exactly the ids of those records, every record has a group, and no two
groups share a pair; in particular two scans of identifier 111 with
condition USED and quantities 2 and 3 yield exactly one group of quantity
5 whose id list has length 2. -/
theorem aggregate_partition (scans : List Scan)
    (hupc : ∀ s ∈ scans, ('_' : Char) ∉ s.upc.data) :
    (∀ g ∈ ebay_export.aggregate_scans_by_upc_condition scans,
        g.scan_data ∈ scans ∧
        g.quantity = agg.qsum (scans.filter (fun s =>
          s.upc == g.scan_data.upc && s.condition == g.scan_data.condition)) ∧
        g.scan_ids = agg.idsOf (scans.filter (fun s =>
          s.upc == g.scan_data.upc && s.condition == g.scan_data.condition))) ∧
    (∀ s ∈ scans, ∃ g ∈ ebay_export.aggregate_scans_by_upc_condition scans,
        g.scan_data.upc = s.upc ∧ g.scan_data.condition = s.condition) ∧
    (ebay_export.aggregate_scans_by_upc_condition scans).Pairwise
      (fun g1 g2 => ¬(g1.scan_data.upc = g2.scan_data.upc ∧
        g1.scan_data.condition = g2.scan_data.condition)) ∧
    (ebay_export.aggregate_scans_by_upc_condition [sampleScan111a, sampleScan111b] =
      [⟨sampleScan111a, 5, [1, 2]⟩] ∧
      ([(1 : ℤ), 2]).length = 2) := by
  have hgood := agg.goodAcc_foldl scans [] agg.goodAcc_nil
  have hfold : ∀ k, (List.lookup k (scans.foldl ebay_export.aggStep [])) =
      agg.combine none (agg.matched k scans) := fun k =>
    agg.foldl_aggStep_lookup scans [] k
  refine ⟨?_, ?_, ?_, by constructor <;> rfl⟩
  · intro g hg
    have hlk := agg.mem_snd_lookup _ hgood g hg
    rw [hfold] at hlk
    cases hmk : agg.matched (ebay_export.keyOf g.scan_data) scans with
    | nil =>
      rw [hmk] at hlk
      simp [agg.combine] at hlk
    | cons m ms =>
      rw [hmk] at hlk
      simp only [agg.combine, Option.some.injEq] at hlk
      have hmem : m ∈ scans := by
        have : m ∈ agg.matched (ebay_export.keyOf g.scan_data) scans := by
          rw [hmk]
          exact List.mem_cons_self _ _
        exact List.mem_of_mem_filter this
      have hsd : g.scan_data = m := by rw [← hlk]
      have hfilter : scans.filter (fun s =>
          s.upc == g.scan_data.upc && s.condition == g.scan_data.condition) =
          agg.matched (ebay_export.keyOf g.scan_data) scans := by
        unfold agg.matched
        refine (List.filter_congr ?_).symm
        intro s hs
        have hiff := agg.keyOf_eq_iff s g.scan_data (hupc s hs)
          (by rw [hsd]; exact hupc m hmem)
        rw [Bool.eq_iff_iff]
        simp only [beq_iff_eq, Bool.and_eq_true]
        constructor
        · intro h
          exact hiff.mp h
        · intro h
          exact hiff.mpr ⟨h.1, h.2⟩
      refine ⟨by rw [hsd]; exact hmem, ?_, ?_⟩
      · rw [hfilter, hmk, ← hlk]
        simp [agg.qsum]
      · rw [hfilter, hmk, ← hlk]
        simp [agg.idsOf]
  · intro s hs
    have hmem : s ∈ agg.matched (ebay_export.keyOf s) scans := by
      unfold agg.matched
      exact List.mem_filter.mpr ⟨hs, by simp⟩
    cases hmk : agg.matched (ebay_export.keyOf s) scans with
    | nil =>
      rw [hmk] at hmem
      simp at hmem
    | cons m ms =>
      have hmmem : m ∈ scans := by
        have : m ∈ agg.matched (ebay_export.keyOf s) scans := by
          rw [hmk]
          exact List.mem_cons_self _ _
        exact List.mem_of_mem_filter this
      have hmkey : ebay_export.keyOf m = ebay_export.keyOf s := by
        have : m ∈ agg.matched (ebay_export.keyOf s) scans := by
          rw [hmk]
          exact List.mem_cons_self _ _
        have := List.of_mem_filter this
        simpa using this
      have hlk : List.lookup (ebay_export.keyOf s) (scans.foldl ebay_export.aggStep []) =
          some ⟨m, m.quantity + agg.qsum ms, m.id :: agg.idsOf ms⟩ := by
        rw [hfold, hmk]
        rfl
      refine ⟨⟨m, m.quantity + agg.qsum ms, m.id :: agg.idsOf ms⟩,
        agg.mem_snd_of_lookup _ _ _ hlk, ?_⟩
      have hpair := (agg.keyOf_eq_iff m s (hupc m hmmem) (hupc s hs)).mp hmkey
      exact hpair
  · have hnd := hgood.1
    have hpw : (scans.foldl ebay_export.aggStep []).Pairwise
        (fun a b => a.1 ≠ b.1) := by
      rw [List.Nodup, List.pairwise_map] at hnd
      exact hnd
    rw [ebay_export.aggregate_scans_by_upc_condition, List.pairwise_map]
    refine List.Pairwise.imp_of_mem ?_ hpw
    intro a b ha hb hne hpair
    apply hne
    rw [← hgood.2 a ha, ← hgood.2 b hb]
    unfold ebay_export.keyOf
    rw [hpair.1, hpair.2]

/-- Witness for C7 at the concrete two-scan input from the specification. -/
theorem aggregate_partition_witness :
    (∀ s ∈ [sampleScan111a, sampleScan111b], ('_' : Char) ∉ s.upc.data) ∧
    ebay_export.aggregate_scans_by_upc_condition [sampleScan111a, sampleScan111b] =
      [⟨sampleScan111a, 5, [1, 2]⟩] :=
  ⟨by decide,
    (aggregate_partition [sampleScan111a, sampleScan111b] (by decide)).2.2.2.1⟩

theorem string_append_ne_empty_left (a b : String) (ha : a ≠ "") : a ++ b ≠ "" := by
  intro h
  apply ha
  have hd := congrArg String.data h
  exact String.ext (List.append_eq_nil.mp hd).1

theorem string_append_ne_empty_right (a b : String) (hb : b ≠ "") : a ++ b ≠ "" := by
  intro h
  apply hb
  have hd := congrArg String.data h
  exact String.ext (List.append_eq_nil.mp hd).2

/-- C2: every invocation of `generate_ebay_csv`, for every state of the
pending records, every write outcome and every output path, returns a
structured result carrying a success flag, a row count and a non-empty
human-readable message, and lets no exception escape (the `Except` layer
always comes back `ok`); on success the row count matches the non-empty
list of rows written. -/
theorem generate_ebay_csv_structured (db : ebay_export.RecordStore)
    (writeFile : Except String Unit) (output_path : String)
    (date_filter : Option String) (mark_exported : Bool) :
    ∃ r w, ebay_export.generate_ebay_csv db writeFile output_path date_filter
        mark_exported = Except.ok (r, w) ∧
      r.message ≠ "" ∧
      (r.success = true → ∃ rows, w = some rows ∧ r.row_count = rows.length ∧
        rows ≠ []) := by
  simp only [ebay_export.generate_ebay_csv]
  set scans0 : List Scan := (match date_filter with
    | some d => (db.byDate d).filter (fun s => s.enriched == 1 && s.exported == 0)
    | none => db.unexported) with hscans0
  by_cases h1 : scans0.isEmpty = true
  · rw [if_pos h1]
    exact ⟨_, _, rfl, by decide, by simp⟩
  · rw [if_neg h1]
    set scans1 := scans0.filter (fun s => pyUpper s.condition != "DONATION") with hscans1
    by_cases h2 : scans1.isEmpty = true
    · rw [if_pos h2]
      exact ⟨_, _, rfl, by decide, by simp⟩
    · rw [if_neg h2]
      set build0 := (ebay_export.aggregate_scans_by_upc_condition scans1).foldl
        (fun (acc : List (List Cell) × List ℤ) (item : ebay_export.AggEntry) =>
          if config.EXPORT_MIN_PRICE_CHECK = true ∧
              item.scan_data.start_price.getD 0 < config.MIN_PRICE then acc
          else (acc.1 ++ [ebay_export.build_ebay_row item.scan_data item.quantity],
            acc.2 ++ item.scan_ids)) ([], []) with hbuild0
      by_cases h3 : build0.1.isEmpty = true
      · rw [if_pos h3]
        exact ⟨_, _, rfl, by decide, by simp⟩
      · rw [if_neg h3]
        cases writeFile with
        | ok u =>
          refine ⟨_, _, rfl, ?_, ?_⟩
          · exact string_append_ne_empty_right _ _ (by decide)
          · intro _
            refine ⟨build0.1, rfl, rfl, ?_⟩
            intro hnil
            rw [hnil] at h3
            exact h3 rfl
        | error e =>
          refine ⟨_, _, rfl, ?_, by simp⟩
          exact string_append_ne_empty_left _ _ (by decide)

/-- Witness for C2 at an empty record store. -/
theorem generate_ebay_csv_structured_witness :
    ∃ r w, ebay_export.generate_ebay_csv sampleStoreEmpty (Except.ok ()) "out.csv"
        none true = Except.ok (r, w) ∧
      r.message ≠ "" ∧
      (r.success = true → ∃ rows, w = some rows ∧ r.row_count = rows.length ∧
        rows ≠ []) :=
  generate_ebay_csv_structured sampleStoreEmpty (Except.ok ()) "out.csv" none true

/-- C8: when every pending enriched, not-yet-exported record has condition
DONATION (and there is at least one), the aggregator excludes them all and
returns the distinct non-error all-donations outcome, with no rows written
to the output file. -/
theorem generate_ebay_csv_all_donations (db : ebay_export.RecordStore)
    (writeFile : Except String Unit) (output_path : String) (mark_exported : Bool)
    (hne : db.unexported ≠ [])
    (hdon : ∀ s ∈ db.unexported, s.condition = "DONATION") :
    ebay_export.generate_ebay_csv db writeFile output_path none mark_exported =
      Except.ok (⟨false, 0, "Tous les scans sont des donations (pas pour eBay)",
        none⟩, none) := by
  simp only [ebay_export.generate_ebay_csv]
  have h1 : ¬(db.unexported.isEmpty = true) := by
    rw [List.isEmpty_iff]
    exact hne
  rw [if_neg h1]
  have h2 : db.unexported.filter (fun s => pyUpper s.condition != "DONATION") = [] := by
    rw [List.filter_eq_nil_iff]
    intro s hs
    rw [hdon s hs]
    decide
  rw [h2]
  rfl

/-- Witness for C8 at a store holding one DONATION record. -/
theorem generate_ebay_csv_all_donations_witness :
    ebay_export.generate_ebay_csv sampleStoreDonation (Except.ok ()) "out.csv"
        none true =
      Except.ok (⟨false, 0, "Tous les scans sont des donations (pas pour eBay)",
        none⟩, none) :=
  generate_ebay_csv_all_donations sampleStoreDonation (Except.ok ()) "out.csv" true
    (by decide) (by decide)

/-- Witness for C10 at the documented example input 1250 g → (1 kg, 250 g). -/
theorem weight_grams_round_trip_witness :
    utils.weight_grams_to_major_minor 1250 = ((1250 : ℤ) / 1000, (1250 : ℤ) % 1000) ∧
    utils.major_minor_to_grams (utils.weight_grams_to_major_minor 1250).1
      (utils.weight_grams_to_major_minor 1250).2 = 1250 :=
  weight_grams_round_trip 1250 (by decide)


/-- C4 counterexample: under an environment in which every attempt times
out, each fetch issues exactly one request, while a client that retried up
to the configured maximum attempt count (as the claim states) would issue
`API_MAX_RETRIES = 3`; so the fetches do not retry. -/
theorem fetch_no_retry_counterexample :
    enrichment.fetch_google_books envTimeoutGB "9780306406157" =
      Except.ok (none, 1) ∧
    enrichment.fetch_openlibrary envTimeoutOL "9780306406157" =
      Except.ok (none, 1) ∧
    enrichment.retrying_fetch_attempts envTimeoutGB = config.API_MAX_RETRIES ∧
    config.API_MAX_RETRIES = 3 ∧ (1 : ℕ) ≠ 3 :=
  ⟨rfl, rfl, rfl, rfl, by decide⟩

/-- C4 amended: each metadata source client issues exactly one request per
call — the configured retry limit and inter-attempt delay are never used —
and on a timeout, raised transport error, non-200 status or parse failure
it returns `none`; for identifiers (digit strings) no exception escapes a
fetch, whose `Except` layer is always `ok`. -/
theorem fetch_single_attempt_no_raise
    (envGB : ℕ → enrichment.RequestOutcome enrichment.GBooksData)
    (envOL : ℕ → enrichment.RequestOutcome (List (String × enrichment.OLEntry)))
    (upc : String) (hdig : ∀ c ∈ upc.data, c.isDigit = true) :
    (∃ res, enrichment.fetch_google_books envGB upc = Except.ok res ∧ res.2 = 1 ∧
      (enrichment.isFailure (envGB 0) → res.1 = none)) ∧
    (∃ res, enrichment.fetch_openlibrary envOL upc = Except.ok res ∧ res.2 = 1 ∧
      (enrichment.isFailure (envOL 0) → res.1 = none)) := by
  constructor
  · cases he : envGB 0 with
    | timeout => exact ⟨(none, 1), by simp [enrichment.fetch_google_books, he], rfl, fun _ => rfl⟩
    | raises m => exact ⟨(none, 1), by simp [enrichment.fetch_google_books, he], rfl, fun _ => rfl⟩
    | response status body =>
      by_cases hs : status = 200
      · cases body with
        | error e =>
          refine ⟨(none, 1), ?_, rfl, fun _ => rfl⟩
          simp [enrichment.fetch_google_books, he, hs]
        | ok data =>
          by_cases ht : data.totalItems.getD 0 > 0
          · refine ⟨(enrichment.parse_google_books_response data, 1), ?_, rfl, ?_⟩
            · simp [enrichment.fetch_google_books, he, hs, ht]
            · intro hf
              rcases hf with hf | ⟨e, hf⟩
              · exact absurd hs hf
              · simp at hf
          · refine ⟨(none, 1), ?_, rfl, fun _ => rfl⟩
            simp [enrichment.fetch_google_books, he, hs, ht]
      · refine ⟨(none, 1), ?_, rfl, fun _ => rfl⟩
        simp [enrichment.fetch_google_books, he, hs]
  · cases he : envOL 0 with
    | timeout => exact ⟨(none, 1), by simp [enrichment.fetch_openlibrary, he], rfl, fun _ => rfl⟩
    | raises m => exact ⟨(none, 1), by simp [enrichment.fetch_openlibrary, he], rfl, fun _ => rfl⟩
    | response status body =>
      by_cases hs : status = 200
      · cases body with
        | error e =>
          refine ⟨(none, 1), ?_, rfl, fun _ => rfl⟩
          simp [enrichment.fetch_openlibrary, he, hs]
        | ok data =>
          cases hh : enrichment.firstHit (("ISBN:" ++ upc) ::
              (match utils.isbn13_to_isbn10 upc with
               | some isbn10 => ["ISBN:" ++ isbn10]
               | none => [])) data with
          | some entry =>
            refine ⟨(enrichment.parse_openlibrary_response entry upc, 1), ?_, rfl, ?_⟩
            · simp [enrichment.fetch_openlibrary, he, hs, hh]
            · intro hf
              rcases hf with hf | ⟨e, hf⟩
              · exact absurd hs hf
              · simp at hf
          | none =>
            refine ⟨(none, 1), ?_, rfl, fun _ => rfl⟩
            simp [enrichment.fetch_openlibrary, he, hs, hh]
      · refine ⟨(none, 1), ?_, rfl, fun _ => rfl⟩
        simp [enrichment.fetch_openlibrary, he, hs]

/-- Witness for the amended C4 at a concrete identifier and the
all-timeouts environments. -/
theorem fetch_single_attempt_no_raise_witness :
    (∃ res, enrichment.fetch_google_books envTimeoutGB "9780306406157" =
        Except.ok res ∧ res.2 = 1 ∧
      (enrichment.isFailure (envTimeoutGB 0) → res.1 = none)) ∧
    (∃ res, enrichment.fetch_openlibrary envTimeoutOL "9780306406157" =
        Except.ok res ∧ res.2 = 1 ∧
      (enrichment.isFailure (envTimeoutOL 0) → res.1 = none)) :=
  fetch_single_attempt_no_raise envTimeoutGB envTimeoutOL "9780306406157" (by decide)

/-- C6 counterexample: with both sources absent, the merged author default
is the French string of the source, not the claimed "Unknown author". -/
theorem merge_author_default_counterexample :
    (enrichment.merge_book_data none none emptyManifest sampleScanInput).author =
      "Auteur inconnu" ∧
    "Auteur inconnu" ≠ "Unknown author" :=
  ⟨rfl, by decide⟩


theorem pyOrD_nil (dflt : String) : enrichment.pyOrD [] dflt = dflt := rfl

theorem pyOrD_none (rest : List (Option String)) (dflt : String) :
    enrichment.pyOrD (none :: rest) dflt = enrichment.pyOrD rest dflt := rfl

theorem pyOrD_some (s : String) (rest : List (Option String)) (dflt : String) :
    enrichment.pyOrD (some s :: rest) dflt =
      if s = "" then enrichment.pyOrD rest dflt else s := rfl

/-- C6 amended: the merge resolves the author field by
first-present-value-wins priority (a value is present when it is neither
None nor empty): source A when it supplies an author, else source B when
it does, else the default "Auteur inconnu" — in particular when both
sources are absent. -/
theorem merge_author_priority (gb_data ol_data : Option enrichment.PartialRecord)
    (manifest_data : enrichment.ManifestData) (scan_data : enrichment.ScanInput) :
    (∀ a, gb_data.bind (fun g => g.author) = some a → a ≠ "" →
      (enrichment.merge_book_data gb_data ol_data manifest_data scan_data).author = a) ∧
    ((∀ a, gb_data.bind (fun g => g.author) = some a → a = "") →
      ∀ b, ol_data.bind (fun o => o.author) = some b → b ≠ "" →
        (enrichment.merge_book_data gb_data ol_data manifest_data scan_data).author = b) ∧
    ((∀ a, gb_data.bind (fun g => g.author) = some a → a = "") →
      (∀ b, ol_data.bind (fun o => o.author) = some b → b = "") →
      (enrichment.merge_book_data gb_data ol_data manifest_data scan_data).author =
        "Auteur inconnu") := by
  have hshape : (enrichment.merge_book_data gb_data ol_data manifest_data
      scan_data).author = enrichment.pyOrD [gb_data.bind (fun g => g.author),
      ol_data.bind (fun o => o.author)] "Auteur inconnu" := rfl
  refine ⟨?_, ?_, ?_⟩
  · intro a ha hne
    rw [hshape, ha, pyOrD_some, if_neg hne]
  · intro hga b hb hne
    rw [hshape]
    cases hg : gb_data.bind (fun g => g.author) with
    | none => rw [pyOrD_none, hb, pyOrD_some, if_neg hne]
    | some a =>
      rw [pyOrD_some, if_pos (hga a hg), hb, pyOrD_some, if_neg hne]
  · intro hga hgb
    rw [hshape]
    cases hg : gb_data.bind (fun g => g.author) with
    | none =>
      cases hb : ol_data.bind (fun o => o.author) with
      | none => rw [pyOrD_none, pyOrD_none, pyOrD_nil]
      | some b =>
        rw [pyOrD_none, pyOrD_some, if_pos (hgb b hb), pyOrD_nil]
    | some a =>
      cases hb : ol_data.bind (fun o => o.author) with
      | none =>
        rw [pyOrD_some, if_pos (hga a hg), pyOrD_none, pyOrD_nil]
      | some b =>
        rw [pyOrD_some, if_pos (hga a hg), pyOrD_some,
          if_pos (hgb b hb), pyOrD_nil]

/-- Witness for the amended C6: source A supplies X, source B supplies Y,
and the merged author is X; with both sources absent the default applies. -/
theorem merge_author_priority_witness :
    (enrichment.merge_book_data (some sampleGBRecord) (some sampleOLRecord)
      emptyManifest sampleScanInput).author = "X" ∧
    (enrichment.merge_book_data none (some sampleOLRecord)
      emptyManifest sampleScanInput).author = "Y" ∧
    (enrichment.merge_book_data none none emptyManifest sampleScanInput).author =
      "Auteur inconnu" :=
  ⟨(merge_author_priority (some sampleGBRecord) (some sampleOLRecord) emptyManifest
      sampleScanInput).1 "X" rfl (by decide),
   (merge_author_priority none (some sampleOLRecord) emptyManifest
      sampleScanInput).2.1 (by intro a ha; simp at ha) "Y" rfl (by decide),
   (merge_author_priority none none emptyManifest sampleScanInput).2.2
      (by intro a ha; simp at ha) (by intro b hb; simp at hb)⟩

end Scanner
